import Mathlib

/-!
Shallow embedding of the `events` package of wadeAlexC/go-events
(canonical variant: the richer emitter with `Once` support and the
sync/async dispatch split), together with proofs of the specified
properties.

Modelling conventions:
* A Go `reflect.Kind` is the inductive `Kind`; a Go `reflect.Type` is a
  `GoType`, a kind together with a type name, so that two distinct types
  may share a kind (the source compares only kinds).
* A (possibly nil) handler argument is an `Option HandlerVal`: `none` is
  the nil interface value, for which `reflect.TypeOf` returns a nil
  `reflect.Type` and the subsequent `Kind()` call panics with a nil
  dereference (modelled by the error `nilTypeDeref`).  A non-nil value
  carries its observable kind, its parameter types (`In(0..NumIn-1)`,
  meaningful only for kind `func`) and an identity for the underlying
  callable.
* An emit argument is a non-nil `GoValue` carrying its `reflect.Type`.
* A Go panic is the `.error` branch of `Except`; in the source every
  `panicF` in `addHandler` and in `callHandlers` occurs before the first
  mutation of the emitter, so a panicking call leaves the state exactly
  as it was; `regState`/`dispatchState` make that observable state
  explicit.
* The Go map `listeners` is an association list with unique keys;
  `lookupTopic`/`setTopic` are map read and write.
* Invoking a callable is opaque; a dispatch is therefore described by
  the ordered list of invocations `(callable id, argument list)` it
  performs.  `callFuncsSync` runs them sequentially in list order (each
  call returns before the next starts); `callFuncsAsync` spawns one
  goroutine per element of the list instead.
-/

namespace Events

/-- The subset of `reflect.Kind` values needed here.  `invalid` is the
zero `Kind`. -/
inductive Kind where
  | invalid
  | bool
  | int
  | uint64
  | string
  | func
  | ptr
  | slice
  deriving DecidableEq, Repr

/-- A Go `reflect.Type` as the emitter observes it: its `Kind` plus the
type's name, so distinct types can share a kind. -/
structure GoType where
  kind : Kind
  name : String
  deriving DecidableEq, Repr

/-- A non-nil Go value passed as a handler.  `kind` is
`reflect.TypeOf(h).Kind()`; `params` lists `TypeOf(h).In(i)` for
`i < NumIn()` (meaningful only when `kind = func`); `id` identifies the
underlying callable, standing for `reflect.ValueOf(h)`. -/
structure HandlerVal where
  id : Nat
  kind : Kind
  params : List GoType
  deriving DecidableEq, Repr

/-- A non-nil Go value passed as an emit argument; `type` is
`reflect.TypeOf(arg)`. -/
structure GoValue where
  id : Nat
  type : GoType
  deriving DecidableEq, Repr

/-- Source `HandlerFunc`: a registered callback with its once-flag.
`f` is the callable's identity (`reflect.ValueOf(handler)`). -/
structure HandlerFunc where
  once : Bool
  f : Nat
  deriving DecidableEq, Repr

/-- Source `Handlers`: the per-topic record.  `inTypes` is the source
field `in` (a Lean keyword), the parameter types of the topic's handler
functions; `funcs` the registered handlers in registration order. -/
structure Handlers where
  inTypes : List GoType
  funcs : List HandlerFunc
  deriving DecidableEq, Repr

/-- Source `Emitter`: maps topics to their `Handlers` record (the Go map
`listeners`, as an association list with unique keys). -/
structure Emitter where
  listeners : List (String × Handlers)
  deriving DecidableEq, Repr

/-- The panics the source can raise via `panicF`, plus the runtime nil
dereference raised when `reflect.TypeOf(nil).Kind()` is called on a nil
handler. -/
inductive EmitterError where
  /-- "Expected handler to have kind Func, got: ..." -/
  | invalidHandlerKind (got : Kind)
  /-- "T[topic] new handler wrong argument count. Expected e; got g" -/
  | arityMismatch (topic : String) (expected got : Nat)
  /-- "T[topic] new handler invalid argument at position i. Expected e; got g" -/
  | typeMismatch (topic : String) (pos : Nat) (expected got : Kind)
  /-- "T[topic] has e input args; got g" -/
  | argCountMismatch (topic : String) (expected got : Nat)
  /-- "T[topic] invalid argument at position i. Expected e; got g" -/
  | argTypeMismatch (topic : String) (pos : Nat) (expected got : Kind)
  /-- Runtime panic from calling `Kind()` on the nil `reflect.Type`
  returned by `reflect.TypeOf` for a nil handler. -/
  | nilTypeDeref
  deriving DecidableEq, Repr

/-- Source `NewEmitter`: an emitter with an empty listeners map. -/
def NewEmitter : Emitter := { listeners := [] }

/-- Read of the Go map `listeners[topic]` (with the `exists` flag encoded
as `Option`). -/
def lookupTopic : List (String × Handlers) → String → Option Handlers
  | [], _ => none
  | (k, v) :: rest, t => if k = t then some v else lookupTopic rest t

/-- Write of the Go map `listeners[topic] = hs`: replaces the entry for
the topic, or appends a new one. -/
def setTopic : List (String × Handlers) → String → Handlers → List (String × Handlers)
  | [], t, hs => [(t, hs)]
  | (k, v) :: rest, t, hs => if k = t then (t, hs) :: rest else (k, v) :: setTopic rest t hs

/-- The positionwise kind-comparison loops of `addHandler` (new handler
params against `handlers.in`) and `callHandlers` (emitted args against
`handlers.in`): returns the first position `i` (counting from `n`) where
the kinds differ, with the expected kind (from the first list) and the
kind actually found (from the second list). -/
def firstKindMismatch : List GoType → List GoType → Nat → Option (Nat × Kind × Kind)
  | [], _, _ => none
  | _, [], _ => none
  | a :: as, b :: bs, n =>
    if b.kind ≠ a.kind then some (n, a.kind, b.kind)
    else firstKindMismatch as bs (n + 1)

/-- Source `(*Emitter).addHandler`.  A nil handler makes
`reflect.TypeOf` return nil and the `Kind()` call panic (`nilTypeDeref`);
a non-func handler panics with `invalidHandlerKind`.  A first
registration for the topic stores the handler's parameter types as the
topic's signature; a later one is validated against that signature
(arity first, then kinds positionwise).  On success the handler is
appended to the end of the topic's `funcs`. -/
def addHandler (e : Emitter) (doOnce : Bool) (topic : String) (handler : Option HandlerVal) :
    Except EmitterError Emitter :=
  match handler with
  | none => .error .nilTypeDeref
  | some h =>
    if h.kind ≠ Kind.func then
      .error (.invalidHandlerKind h.kind)
    else
      match lookupTopic e.listeners topic with
      | none =>
        let hs : Handlers := { inTypes := h.params, funcs := [{ once := doOnce, f := h.id }] }
        .ok { listeners := setTopic e.listeners topic hs }
      | some hs =>
        if h.params.length ≠ hs.inTypes.length then
          .error (.arityMismatch topic hs.inTypes.length h.params.length)
        else
          match firstKindMismatch hs.inTypes h.params 0 with
          | some (i, exp, got) => .error (.typeMismatch topic i exp got)
          | none =>
            let hs2 : Handlers := { hs with funcs := hs.funcs ++ [{ once := doOnce, f := h.id }] }
            .ok { listeners := setTopic e.listeners topic hs2 }

/-- Source `(*Emitter).On`: registers a callback for a topic. -/
def On (e : Emitter) (topic : String) (handler : Option HandlerVal) : Except EmitterError Emitter :=
  addHandler e false topic handler

/-- Source `(*Emitter).Once`: registers a callback that is removed after
it has been invoked. -/
def Once (e : Emitter) (topic : String) (handler : Option HandlerVal) : Except EmitterError Emitter :=
  addHandler e true topic handler

/-- Source `(*Handlers).grabFuncs`: returns every registered callable (in
order) for firing, and keeps in the record only those not flagged
`once`, preserving their relative order. -/
def grabFuncs : List HandlerFunc → List Nat × List HandlerFunc
  | [] => ([], [])
  | hf :: rest =>
    let (fs, keep) := grabFuncs rest
    (hf.f :: fs, if hf.once then keep else hf :: keep)

/-- Source `(*Emitter).callHandlers` up to the point where the collected
callables are invoked: validation and the `grabFuncs` snapshot-and-remove
step, shared by `Emit` and `EmitSync`.  Returns the emitter state after
the call and the ordered list of callables collected for firing.  A
topic with no entry is a no-op (`.ok` with nothing collected); a
validation failure is a panic (`.error`), raised before `grabFuncs`, so
no handler is collected or removed. -/
def callHandlers (e : Emitter) (topic : String) (args : List GoValue) :
    Except EmitterError (Emitter × List Nat) :=
  match lookupTopic e.listeners topic with
  | none => .ok (e, [])
  | some hs =>
    if args.length ≠ hs.inTypes.length then
      .error (.argCountMismatch topic hs.inTypes.length args.length)
    else
      match firstKindMismatch hs.inTypes (args.map (fun a => a.type)) 0 with
      | some (i, exp, got) => .error (.argTypeMismatch topic i exp got)
      | none =>
        let (fired, keep) := grabFuncs hs.funcs
        .ok ({ listeners := setTopic e.listeners topic { hs with funcs := keep } }, fired)

/-- Source `callFuncsSync`: invokes the collected callables one at a
time, in list order, each returning before the next is invoked; the
result is the invocation trace in that order. -/
def callFuncsSync (funcs : List Nat) (inArgs : List GoValue) : List (Nat × List GoValue) :=
  funcs.map (fun f => (f, inArgs))

/-- Source `callFuncsAsync`: spawns one goroutine per collected
callable; the result lists the spawned invocations in spawn order (their
execution order is not modelled). -/
def callFuncsAsync (funcs : List Nat) (inArgs : List GoValue) : List (Nat × List GoValue) :=
  funcs.map (fun f => (f, inArgs))

/-- Source `(*Emitter).EmitSync`: `callHandlers` with synchronous
invocation of the collected callables. -/
def EmitSync (e : Emitter) (topic : String) (args : List GoValue) :
    Except EmitterError (Emitter × List (Nat × List GoValue)) :=
  match callHandlers e topic args with
  | .error err => .error err
  | .ok (e2, fired) => .ok (e2, callFuncsSync fired args)

/-- Source `(*Emitter).Emit`: `callHandlers` with one goroutine spawned
per collected callable. -/
def Emit (e : Emitter) (topic : String) (args : List GoValue) :
    Except EmitterError (Emitter × List (Nat × List GoValue)) :=
  match callHandlers e topic args with
  | .error err => .error err
  | .ok (e2, fired) => .ok (e2, callFuncsAsync fired args)

/-- The emitter state observable after a registration call: the updated
state on normal return, the unchanged input state on a panic (in the
source every `panicF` in `addHandler` precedes the first mutation). -/
def regState (e : Emitter) (doOnce : Bool) (topic : String) (handler : Option HandlerVal) :
    Emitter :=
  match addHandler e doOnce topic handler with
  | .ok e2 => e2
  | .error _ => e

/-- The emitter state observable after a dispatch call: the updated
state on normal return, the unchanged input state on a panic (in the
source every `panicF` in `callHandlers` precedes `grabFuncs`, the only
mutation). -/
def dispatchState (e : Emitter) (topic : String) (args : List GoValue) : Emitter :=
  match callHandlers e topic args with
  | .ok (e2, _) => e2
  | .error _ => e

/-- Whether a registration result is the `InvalidHandlerKind` panic. -/
def isInvalidHandlerKindError : Except EmitterError Emitter → Bool
  | .error (.invalidHandlerKind _) => true
  | _ => false

/-- The Go type `string`, for concrete instantiations. -/
def tString : GoType := { kind := Kind.string, name := "string" }

/-- The Go type `uint64`, for concrete instantiations. -/
def tUint64 : GoType := { kind := Kind.uint64, name := "uint64" }

/-- The Go type `int`, for concrete instantiations. -/
def tInt : GoType := { kind := Kind.int, name := "int" }

/-- A distinct Go type (`type MyInt int`) sharing `int`'s kind, for
concrete instantiations of the kind-level comparison. -/
def tMyInt : GoType := { kind := Kind.int, name := "main.MyInt" }

/-- A concrete emitter whose topic "ready" has signature
`(string, uint64)` and two handlers: id 1 registered via `On`, id 2
registered via `Once`, in that order. -/
def readyEmitter : Emitter :=
  { listeners := [("ready",
      { inTypes := [tString, tUint64],
        funcs := [{ once := false, f := 1 }, { once := true, f := 2 }] })] }

/-- A concrete `string` argument value, for instantiations. -/
def aName : GoValue := { id := 10, type := tString }

/-- A concrete `uint64` argument value, for instantiations. -/
def aVal : GoValue := { id := 11, type := tUint64 }

/-- Reading the map after a write: the written topic returns the new
record, every other topic is unaffected. -/
theorem lookupTopic_setTopic (l : List (String × Handlers)) (k : String) (v : Handlers)
    (k2 : String) :
    lookupTopic (setTopic l k v) k2 = if k = k2 then some v else lookupTopic l k2 := by
  induction l with
  | nil =>
    by_cases h : k = k2 <;> simp [setTopic, lookupTopic, h]
  | cons p rest ih =>
    obtain ⟨a, b⟩ := p
    by_cases hak : a = k
    · subst hak
      by_cases h : a = k2 <;> simp [setTopic, lookupTopic, h]
    · by_cases h : a = k2
      · subst h
        have hk : k ≠ a := fun hh => hak hh.symm
        simp [setTopic, lookupTopic, hak, hk]
      · simp [setTopic, lookupTopic, hak, h, ih]

/-- `grabFuncs` collects every callable in order and keeps exactly the
entries not flagged `once`, in their original relative order. -/
theorem grabFuncs_eq (funcs : List HandlerFunc) :
    grabFuncs funcs = (funcs.map (fun hf => hf.f), funcs.filter (fun hf => !hf.once)) := by
  induction funcs with
  | nil => rfl
  | cons hf rest ih =>
    cases h : hf.once <;> simp [grabFuncs, ih, List.filter_cons, h]

/-- The kind-comparison loop finds no mismatch exactly when the two
kind sequences agree (given equal lengths, as established by the arity
check that precedes it in the source). -/
theorem firstKindMismatch_eq_none_iff (a b : List GoType) (n : Nat)
    (hlen : a.length = b.length) :
    firstKindMismatch a b n = none ↔
      a.map (fun p => p.kind) = b.map (fun p => p.kind) := by
  induction a generalizing b n with
  | nil =>
    cases b with
    | nil => simp [firstKindMismatch]
    | cons b bs => simp at hlen
  | cons x as ih =>
    cases b with
    | nil => simp at hlen
    | cons y bs =>
      simp only [List.length_cons, Nat.succ.injEq] at hlen
      by_cases h : y.kind = x.kind
      · have h1 : firstKindMismatch (x :: as) (y :: bs) n = firstKindMismatch as bs (n + 1) := by
          simp [firstKindMismatch, h]
        rw [h1, ih bs (n + 1) hlen]
        simp [h]
      · have h1 : firstKindMismatch (x :: as) (y :: bs) n = some (n, x.kind, y.kind) := by
          simp [firstKindMismatch, h]
        rw [h1]
        simp only [List.map_cons, List.cons.injEq]
        constructor
        · intro hh; exact Option.noConfusion hh
        · intro hh; exact absurd hh.1.symm h

/-- When the kind-comparison loop reports a mismatch it identifies a
real position: the expected kind is the signature's kind there, the got
kind is the candidate's kind there, and the two differ. -/
theorem firstKindMismatch_some_spec (a b : List GoType) (n i : Nat) (exp got : Kind)
    (h : firstKindMismatch a b n = some (i, exp, got)) :
    ∃ j, i = n + j ∧
      (a[j]?).map (fun p => p.kind) = some exp ∧
      (b[j]?).map (fun p => p.kind) = some got ∧
      exp ≠ got := by
  induction a generalizing b n i with
  | nil => simp [firstKindMismatch] at h
  | cons x as ih =>
    cases b with
    | nil => simp [firstKindMismatch] at h
    | cons y bs =>
      by_cases hk : y.kind = x.kind
      · have h1 : firstKindMismatch (x :: as) (y :: bs) n = firstKindMismatch as bs (n + 1) := by
          simp [firstKindMismatch, hk]
        rw [h1] at h
        obtain ⟨j, hj, ha, hb, hne⟩ := ih bs (n + 1) i h
        exact ⟨j + 1, by omega, by simpa using ha, by simpa using hb, hne⟩
      · have h1 : firstKindMismatch (x :: as) (y :: bs) n = some (n, x.kind, y.kind) := by
          simp [firstKindMismatch, hk]
        rw [h1] at h
        obtain ⟨rfl, rfl, rfl⟩ : n = i ∧ x.kind = exp ∧ y.kind = got := by
          simpa using h
        exact ⟨0, by omega, by simp, by simp, fun hh => hk hh.symm⟩

/-- A dispatch that passes validation: it snapshots every registered
callable in order and keeps only the handlers not flagged `once`. -/
theorem callHandlers_ok (e : Emitter) (t : String) (args : List GoValue) (hs : Handlers)
    (hlook : lookupTopic e.listeners t = some hs)
    (hlen : args.length = hs.inTypes.length)
    (hkinds : args.map (fun a => a.type.kind) = hs.inTypes.map (fun p => p.kind)) :
    callHandlers e t args =
      .ok (Emitter.mk (setTopic e.listeners t
            (Handlers.mk hs.inTypes (hs.funcs.filter (fun hf => !hf.once)))),
        hs.funcs.map (fun hf => hf.f)) := by
  have hmm : firstKindMismatch hs.inTypes (args.map (fun a => a.type)) 0 = none := by
    apply (firstKindMismatch_eq_none_iff _ _ 0 (by simp [hlen])).mpr
    simp only [List.map_map]
    rw [← hkinds]
    rfl
  unfold callHandlers
  rw [hlook]
  simp [hlen, hmm, grabFuncs_eq]

/-- A dispatch on a registered topic with the wrong number of arguments
panics with the argument-count message. -/
theorem callHandlers_count_error (e : Emitter) (t : String) (args : List GoValue) (hs : Handlers)
    (hlook : lookupTopic e.listeners t = some hs)
    (hne : args.length ≠ hs.inTypes.length) :
    callHandlers e t args = .error (.argCountMismatch t hs.inTypes.length args.length) := by
  unfold callHandlers
  rw [hlook]
  simp [hne]

/-- A dispatch on a registered topic whose argument kinds mismatch the
signature at the position found by the comparison loop panics with the
argument-type message for that position. -/
theorem callHandlers_kind_error (e : Emitter) (t : String) (args : List GoValue) (hs : Handlers)
    (i : Nat) (exp got : Kind)
    (hlook : lookupTopic e.listeners t = some hs)
    (hlen : args.length = hs.inTypes.length)
    (heq : firstKindMismatch hs.inTypes (args.map (fun a => a.type)) 0 = some (i, exp, got)) :
    callHandlers e t args = .error (.argTypeMismatch t i exp got) := by
  unfold callHandlers
  rw [hlook]
  simp [hlen, heq]

/-- C1: for every topic with no entry in the listeners map (no handler
was ever registered for it, entries never being removed), `Emit` and
`EmitSync` return normally, collect and invoke no handler, and leave the
emitter — in particular its listeners map — unchanged. -/
theorem emit_unregistered_topic_noop (e : Emitter) (t : String) (args : List GoValue)
    (h : lookupTopic e.listeners t = none) :
    callHandlers e t args = .ok (e, []) ∧
    EmitSync e t args = .ok (e, []) ∧
    Emit e t args = .ok (e, []) := by
  have hc : callHandlers e t args = .ok (e, []) := by
    unfold callHandlers
    rw [h]
  refine ⟨hc, ?_, ?_⟩
  · unfold EmitSync
    rw [hc]
    rfl
  · unfold Emit
    rw [hc]
    rfl

/-- C1, concrete instance: emitting "absent" (never registered) on an
emitter that only knows topic "ready" is a no-op. -/
theorem emit_unregistered_topic_noop_witness :
    lookupTopic readyEmitter.listeners "absent" = none ∧
    EmitSync readyEmitter "absent" [aName] = .ok (readyEmitter, []) ∧
    Emit readyEmitter "absent" [aName] = .ok (readyEmitter, []) := by
  have h : lookupTopic readyEmitter.listeners "absent" = none := by decide
  have hall := emit_unregistered_topic_noop readyEmitter "absent" [aName] h
  exact ⟨h, hall.2.1, hall.2.2⟩

/-- C2: the parameter types of the first handler registered under a
topic become the topic's signature; a later registration (via `On` or
`Once`, i.e. any once-flag) whose parameter sequence differs in length
fails with the arity-mismatch panic, and one that agrees in length but
differs in kind at some position fails with the type-mismatch panic
naming the first such position; in both failure cases the state
observable after the call is the state before it, so the topic's handler
list and signature are untouched. -/
theorem signature_lock_in (e : Emitter) (doOnce : Bool) (t : String) (h : HandlerVal) :
    (lookupTopic e.listeners t = none → h.kind = Kind.func →
      addHandler e doOnce t (some h) =
        .ok (Emitter.mk (setTopic e.listeners t
          (Handlers.mk h.params [HandlerFunc.mk doOnce h.id])))) ∧
    (∀ hs, lookupTopic e.listeners t = some hs → h.kind = Kind.func →
      h.params.length ≠ hs.inTypes.length →
      addHandler e doOnce t (some h) =
        .error (.arityMismatch t hs.inTypes.length h.params.length) ∧
      regState e doOnce t (some h) = e) ∧
    (∀ hs, lookupTopic e.listeners t = some hs → h.kind = Kind.func →
      h.params.length = hs.inTypes.length →
      h.params.map (fun p => p.kind) ≠ hs.inTypes.map (fun p => p.kind) →
      (∃ i exp got,
        addHandler e doOnce t (some h) = .error (.typeMismatch t i exp got) ∧
        (hs.inTypes[i]?).map (fun p => p.kind) = some exp ∧
        (h.params[i]?).map (fun p => p.kind) = some got ∧
        exp ≠ got) ∧
      regState e doOnce t (some h) = e) := by
  refine ⟨?_, ?_, ?_⟩
  · intro hnone hk
    unfold addHandler
    simp [hk, hnone]
  · intro hs hlook hk hne
    have hcall : addHandler e doOnce t (some h) =
        .error (.arityMismatch t hs.inTypes.length h.params.length) := by
      unfold addHandler
      simp [hk, hlook, hne]
    refine ⟨hcall, ?_⟩
    unfold regState
    rw [hcall]
  · intro hs hlook hk hlen hmaps
    cases heq : firstKindMismatch hs.inTypes h.params 0 with
    | none =>
      have := (firstKindMismatch_eq_none_iff hs.inTypes h.params 0 hlen.symm).mp heq
      exact absurd this.symm hmaps
    | some trip =>
      obtain ⟨i, exp, got⟩ := trip
      have hcall : addHandler e doOnce t (some h) = .error (.typeMismatch t i exp got) := by
        unfold addHandler
        simp [hk, hlook, hlen, heq]
      obtain ⟨j, hj, ha, hb, hne⟩ := firstKindMismatch_some_spec hs.inTypes h.params 0 i exp got heq
      have hji : j = i := by omega
      subst hji
      refine ⟨⟨j, exp, got, hcall, ha, hb, hne⟩, ?_⟩
      unfold regState
      rw [hcall]

/-- C2, concrete instance: registering handler 1 with params
`(string, uint64)` on a fresh emitter creates topic "ready" with that
signature; then a handler with one param fails with the arity panic, and
a handler with params `(string, string)` fails with the type-mismatch
panic at position 1 (expected uint64, got string); both leave the
emitter as it was. -/
theorem signature_lock_in_witness :
    (addHandler NewEmitter false "ready"
        (some (HandlerVal.mk 1 Kind.func [tString, tUint64])) =
      .ok (Emitter.mk [("ready",
        Handlers.mk [tString, tUint64] [HandlerFunc.mk false 1])])) ∧
    (addHandler (Emitter.mk [("ready",
        Handlers.mk [tString, tUint64] [HandlerFunc.mk false 1])])
        true "ready" (some (HandlerVal.mk 3 Kind.func [tString])) =
      .error (.arityMismatch "ready" 2 1) ∧
     regState (Emitter.mk [("ready",
        Handlers.mk [tString, tUint64] [HandlerFunc.mk false 1])])
        true "ready" (some (HandlerVal.mk 3 Kind.func [tString])) =
      Emitter.mk [("ready",
        Handlers.mk [tString, tUint64] [HandlerFunc.mk false 1])]) ∧
    (∃ i exp got,
      addHandler (Emitter.mk [("ready",
          Handlers.mk [tString, tUint64] [HandlerFunc.mk false 1])])
          false "ready" (some (HandlerVal.mk 4 Kind.func [tString, tString])) =
        .error (.typeMismatch "ready" i exp got) ∧
      (([tString, tUint64] : List GoType)[i]?).map (fun p => p.kind) = some exp ∧
      (([tString, tString] : List GoType)[i]?).map (fun p => p.kind) = some got ∧
      exp ≠ got) := by
  refine ⟨?_, ?_, ?_⟩
  · have h1 := (signature_lock_in NewEmitter false "ready"
      (HandlerVal.mk 1 Kind.func [tString, tUint64])).1 (by decide) rfl
    rw [h1]
    rfl
  · exact (signature_lock_in _ true "ready"
      (HandlerVal.mk 3 Kind.func [tString])).2.1
      (Handlers.mk [tString, tUint64] [HandlerFunc.mk false 1])
      (by decide) rfl (by decide)
  · exact ((signature_lock_in _ false "ready"
      (HandlerVal.mk 4 Kind.func [tString, tString])).2.2
      (Handlers.mk [tString, tUint64] [HandlerFunc.mk false 1])
      (by decide) rfl (by decide) (by decide)).1

/-- C3: a successful dispatch collects every registered callable for
firing (in particular every once-flagged one) and leaves in the topic's
list exactly the handlers not flagged once, as a sublist in their
original relative order; a once-flagged handler is therefore invoked by
that dispatch and absent from the list every later dispatch sees. -/
theorem once_handler_semantics (e : Emitter) (t : String) (args : List GoValue) (hs : Handlers)
    (hlook : lookupTopic e.listeners t = some hs)
    (hlen : args.length = hs.inTypes.length)
    (hkinds : args.map (fun a => a.type.kind) = hs.inTypes.map (fun p => p.kind)) :
    callHandlers e t args =
      .ok (Emitter.mk (setTopic e.listeners t
            (Handlers.mk hs.inTypes (hs.funcs.filter (fun hf => !hf.once)))),
        hs.funcs.map (fun hf => hf.f)) ∧
    (∀ hf ∈ hs.funcs, hf.once = true →
      hf.f ∈ hs.funcs.map (fun hf2 => hf2.f) ∧
      hf ∉ hs.funcs.filter (fun hf2 => !hf2.once)) ∧
    (∀ hf ∈ hs.funcs, hf.once = false →
      hf ∈ hs.funcs.filter (fun hf2 => !hf2.once)) ∧
    List.Sublist (hs.funcs.filter (fun hf2 => !hf2.once)) hs.funcs := by
  refine ⟨callHandlers_ok e t args hs hlook hlen hkinds, ?_, ?_, List.filter_sublist hs.funcs⟩
  · intro hf hmem honce
    refine ⟨List.mem_map_of_mem _ hmem, ?_⟩
    intro hc
    have := (List.mem_filter.mp hc).2
    simp [honce] at this
  · intro hf hmem honce
    exact List.mem_filter.mpr ⟨hmem, by simp [honce]⟩

/-- C3, concrete instance: on "ready" with handlers 1 (`On`) and 2
(`Once`), one valid dispatch collects both in order and the list the
next dispatch sees contains only handler 1; the once entry is gone. -/
theorem once_handler_semantics_witness :
    callHandlers readyEmitter "ready" [aName, aVal] =
      .ok (Emitter.mk [("ready", Handlers.mk [tString, tUint64] [HandlerFunc.mk false 1])],
        [1, 2]) ∧
    HandlerFunc.mk true 2 ∉
      ((Handlers.mk [tString, tUint64]
        [HandlerFunc.mk false 1, HandlerFunc.mk true 2]).funcs.filter (fun hf => !hf.once)) := by
  have hall := once_handler_semantics readyEmitter "ready" [aName, aVal]
    (Handlers.mk [tString, tUint64] [HandlerFunc.mk false 1, HandlerFunc.mk true 2])
    (by decide) (by decide) (by decide)
  constructor
  · rw [hall.1]
    rfl
  · exact (hall.2.1 (HandlerFunc.mk true 2) (by decide) rfl).2

/-- C4: successful registrations append at the end of the topic's
handler list, so the list holds handlers in registration order, and a
valid `EmitSync` dispatch invokes exactly those handlers, sequentially,
in that same order (the trace lists the invocations in the order they
are performed; each returns before the next starts). -/
theorem dispatch_registration_order (e : Emitter) (t : String) (args : List GoValue)
    (hs : Handlers)
    (hlook : lookupTopic e.listeners t = some hs)
    (hlen : args.length = hs.inTypes.length)
    (hkinds : args.map (fun a => a.type.kind) = hs.inTypes.map (fun p => p.kind)) :
    (∃ e2, EmitSync e t args = .ok (e2, hs.funcs.map (fun hf => (hf.f, args)))) ∧
    (∀ doOnce (h : HandlerVal) e2, addHandler e doOnce t (some h) = .ok e2 →
      ∃ hs2, lookupTopic e2.listeners t = some hs2 ∧
        hs2.funcs = hs.funcs ++ [HandlerFunc.mk doOnce h.id]) := by
  constructor
  · refine ⟨Emitter.mk (setTopic e.listeners t
      (Handlers.mk hs.inTypes (hs.funcs.filter (fun hf => !hf.once)))), ?_⟩
    unfold EmitSync
    rw [callHandlers_ok e t args hs hlook hlen hkinds]
    simp [callFuncsSync, List.map_map]
  · intro doOnce h e2 hadd
    unfold addHandler at hadd
    by_cases hk : h.kind = Kind.func
    · rw [hlook] at hadd
      simp only [hk] at hadd
      by_cases hl : h.params.length = hs.inTypes.length
      · simp only [hl] at hadd
        cases hmm2 : firstKindMismatch hs.inTypes h.params 0 with
        | some trip =>
          obtain ⟨i, exp, got⟩ := trip
          rw [hmm2] at hadd
          simp at hadd
        | none =>
          rw [hmm2] at hadd
          simp at hadd
          subst hadd
          refine ⟨Handlers.mk hs.inTypes (hs.funcs ++ [HandlerFunc.mk doOnce h.id]), ?_, rfl⟩
          simp [lookupTopic_setTopic]
      · simp [hl] at hadd
    · simp [hk] at hadd

/-- C4, concrete instance: registering handler 3 via `On` on "ready"
appends it after handlers 1 and 2, and a valid `EmitSync` fires the
invocation trace in registration order: handler 1 then handler 2. -/
theorem dispatch_registration_order_witness :
    (∃ e2, EmitSync readyEmitter "ready" [aName, aVal] =
      .ok (e2, [(1, [aName, aVal]), (2, [aName, aVal])])) ∧
    (∃ hs2, lookupTopic
        (Emitter.mk [("ready", Handlers.mk [tString, tUint64]
          [HandlerFunc.mk false 1, HandlerFunc.mk true 2, HandlerFunc.mk false 3])]).listeners
        "ready" = some hs2 ∧
      hs2.funcs = [HandlerFunc.mk false 1, HandlerFunc.mk true 2] ++ [HandlerFunc.mk false 3]) := by
  have hall := dispatch_registration_order readyEmitter "ready" [aName, aVal]
    (Handlers.mk [tString, tUint64] [HandlerFunc.mk false 1, HandlerFunc.mk true 2])
    (by decide) (by decide) (by decide)
  constructor
  · exact hall.1
  · exact hall.2 false (HandlerVal.mk 3 Kind.func [tString, tUint64]) _ rfl

/-- C5: on a registered topic, a dispatch with the wrong argument count
panics with the argument-count message, and one with a kind mismatch at
some position (given the right count) panics with the argument-type
message identifying a real mismatching position; both panics abort
`Emit` and `EmitSync` before any handler is collected or invoked (the
error carries no invocation trace). -/
theorem dispatch_validation_errors (e : Emitter) (t : String) (args : List GoValue)
    (hs : Handlers)
    (hlook : lookupTopic e.listeners t = some hs) :
    (args.length ≠ hs.inTypes.length →
      callHandlers e t args = .error (.argCountMismatch t hs.inTypes.length args.length) ∧
      EmitSync e t args = .error (.argCountMismatch t hs.inTypes.length args.length) ∧
      Emit e t args = .error (.argCountMismatch t hs.inTypes.length args.length)) ∧
    (args.length = hs.inTypes.length →
      args.map (fun a => a.type.kind) ≠ hs.inTypes.map (fun p => p.kind) →
      ∃ i exp got,
        callHandlers e t args = .error (.argTypeMismatch t i exp got) ∧
        EmitSync e t args = .error (.argTypeMismatch t i exp got) ∧
        Emit e t args = .error (.argTypeMismatch t i exp got) ∧
        (hs.inTypes[i]?).map (fun p => p.kind) = some exp ∧
        (args[i]?).map (fun a => a.type.kind) = some got ∧
        exp ≠ got) := by
  constructor
  · intro hne
    have hcall := callHandlers_count_error e t args hs hlook hne
    refine ⟨hcall, ?_, ?_⟩
    · unfold EmitSync
      rw [hcall]
    · unfold Emit
      rw [hcall]
  · intro hlen hmaps
    cases heq : firstKindMismatch hs.inTypes (args.map (fun a => a.type)) 0 with
    | none =>
      have hmap2 := (firstKindMismatch_eq_none_iff hs.inTypes (args.map (fun a => a.type)) 0
        (by simp [hlen])).mp heq
      simp only [List.map_map] at hmap2
      exact absurd hmap2.symm (by simpa using hmaps)
    | some trip =>
      obtain ⟨i, exp, got⟩ := trip
      have hcall := callHandlers_kind_error e t args hs i exp got hlook hlen heq
      obtain ⟨j, hj, ha, hb, hne⟩ :=
        firstKindMismatch_some_spec hs.inTypes (args.map (fun a => a.type)) 0 i exp got heq
      have hji : j = i := by omega
      subst hji
      refine ⟨j, exp, got, hcall, ?_, ?_, ha, ?_, hne⟩
      · unfold EmitSync
        rw [hcall]
      · unfold Emit
        rw [hcall]
      · simpa [Option.map_map] using hb

/-- C5, concrete instance: on "ready" (signature `(string, uint64)`),
emitting one argument fails with the count panic, and emitting
`(string, string)` fails with the type panic at position 1 (expected
uint64, got string); `Emit` and `EmitSync` both surface the panic. -/
theorem dispatch_validation_errors_witness :
    (callHandlers readyEmitter "ready" [aName] =
      .error (.argCountMismatch "ready" 2 1) ∧
     EmitSync readyEmitter "ready" [aName] =
      .error (.argCountMismatch "ready" 2 1) ∧
     Emit readyEmitter "ready" [aName] =
      .error (.argCountMismatch "ready" 2 1)) ∧
    (∃ i exp got,
      callHandlers readyEmitter "ready" [aName, aName] =
        .error (.argTypeMismatch "ready" i exp got) ∧
      EmitSync readyEmitter "ready" [aName, aName] =
        .error (.argTypeMismatch "ready" i exp got) ∧
      Emit readyEmitter "ready" [aName, aName] =
        .error (.argTypeMismatch "ready" i exp got) ∧
      (([tString, tUint64] : List GoType)[i]?).map (fun p => p.kind) = some exp ∧
      (([aName, aName] : List GoValue)[i]?).map (fun a => a.type.kind) = some got ∧
      exp ≠ got) := by
  constructor
  · exact (dispatch_validation_errors readyEmitter "ready" [aName]
      (Handlers.mk [tString, tUint64] [HandlerFunc.mk false 1, HandlerFunc.mk true 2])
      (by decide)).1 (by decide)
  · exact (dispatch_validation_errors readyEmitter "ready" [aName, aName]
      (Handlers.mk [tString, tUint64] [HandlerFunc.mk false 1, HandlerFunc.mk true 2])
      (by decide)).2 (by decide) (by decide)

/-- C6: validation at registration and at dispatch compares kind tags
positionwise, never exact types: a handler whose parameter kinds equal
the signature's kinds is accepted (and appended) even when the types
themselves differ, and an argument list whose runtime kinds equal the
signature's kinds passes dispatch validation. -/
theorem kind_level_validation (e : Emitter) (t : String) (hs : Handlers)
    (hlook : lookupTopic e.listeners t = some hs) :
    (∀ doOnce (h : HandlerVal), h.kind = Kind.func →
      h.params.map (fun p => p.kind) = hs.inTypes.map (fun p => p.kind) →
      addHandler e doOnce t (some h) =
        .ok (Emitter.mk (setTopic e.listeners t
          (Handlers.mk hs.inTypes (hs.funcs ++ [HandlerFunc.mk doOnce h.id]))))) ∧
    (∀ args : List GoValue,
      args.map (fun a => a.type.kind) = hs.inTypes.map (fun p => p.kind) →
      callHandlers e t args =
        .ok (Emitter.mk (setTopic e.listeners t
            (Handlers.mk hs.inTypes (hs.funcs.filter (fun hf => !hf.once)))),
          hs.funcs.map (fun hf => hf.f))) := by
  constructor
  · intro doOnce h hk hkinds
    have hlen : h.params.length = hs.inTypes.length := by
      have := congrArg List.length hkinds
      simpa using this
    have hmm : firstKindMismatch hs.inTypes h.params 0 = none :=
      (firstKindMismatch_eq_none_iff hs.inTypes h.params 0 hlen.symm).mpr hkinds.symm
    unfold addHandler
    rw [hlook]
    simp [hk, hlen, hmm]
  · intro args hkinds
    have hlen : args.length = hs.inTypes.length := by
      have := congrArg List.length hkinds
      simpa using this
    exact callHandlers_ok e t args hs hlook hlen hkinds

/-- C6, concrete instance: topic "n" has signature `(int)` established
through the type `int`; a handler whose parameter type is the distinct
type `main.MyInt` (same kind `int`) is accepted, and an argument whose
runtime type is `main.MyInt` passes dispatch validation — although the
two types differ. -/
theorem kind_level_validation_witness :
    tMyInt ≠ tInt ∧
    addHandler (Emitter.mk [("n", Handlers.mk [tInt] [HandlerFunc.mk false 5])])
      false "n" (some (HandlerVal.mk 6 Kind.func [tMyInt])) =
      .ok (Emitter.mk [("n",
        Handlers.mk [tInt] [HandlerFunc.mk false 5, HandlerFunc.mk false 6])]) ∧
    callHandlers (Emitter.mk [("n", Handlers.mk [tInt] [HandlerFunc.mk false 5])])
      "n" [GoValue.mk 20 tMyInt] =
      .ok (Emitter.mk [("n", Handlers.mk [tInt] [HandlerFunc.mk false 5])], [5]) := by
  have hall := kind_level_validation
    (Emitter.mk [("n", Handlers.mk [tInt] [HandlerFunc.mk false 5])]) "n"
    (Handlers.mk [tInt] [HandlerFunc.mk false 5]) (by decide)
  refine ⟨by decide, ?_, ?_⟩
  · have h1 := hall.1 false (HandlerVal.mk 6 Kind.func [tMyInt]) rfl (by decide)
    rw [h1]
    rfl
  · have h2 := hall.2 [GoValue.mk 20 tMyInt] (by decide)
    rw [h2]
    rfl

/-- C7: once a topic has an entry, no operation removes it or changes
its signature — any successful registration (on any topic, with any
once-flag) and any successful dispatch (on any topic) leave the entry
present with the same parameter types; and a topic whose handlers were
all consumed is still validated against its original signature. -/
theorem topic_entry_persistence (e : Emitter) (t : String) (hs : Handlers)
    (hlook : lookupTopic e.listeners t = some hs) :
    (∀ doOnce t2 handler e2, addHandler e doOnce t2 handler = .ok e2 →
      ∃ hs2, lookupTopic e2.listeners t = some hs2 ∧ hs2.inTypes = hs.inTypes) ∧
    (∀ t2 args e2 fired, callHandlers e t2 args = .ok (e2, fired) →
      ∃ hs2, lookupTopic e2.listeners t = some hs2 ∧ hs2.inTypes = hs.inTypes) ∧
    (∀ doOnce (h : HandlerVal), hs.funcs = [] → h.kind = Kind.func →
      h.params.length ≠ hs.inTypes.length →
      addHandler e doOnce t (some h) =
        .error (.arityMismatch t hs.inTypes.length h.params.length)) := by
  refine ⟨?_, ?_, ?_⟩
  · intro doOnce t2 handler e2 hadd
    cases handler with
    | none => simp [addHandler] at hadd
    | some h =>
      unfold addHandler at hadd
      by_cases hk : h.kind = Kind.func
      · simp only [hk] at hadd
        cases hlook2 : lookupTopic e.listeners t2 with
        | none =>
          rw [hlook2] at hadd
          simp at hadd
          subst hadd
          have hne : t2 ≠ t := by
            intro hh
            rw [hh, hlook] at hlook2
            exact Option.noConfusion hlook2
          refine ⟨hs, ?_, rfl⟩
          simp [lookupTopic_setTopic, hne, hlook]
        | some hs1 =>
          rw [hlook2] at hadd
          by_cases hl : h.params.length = hs1.inTypes.length
          · simp only [hl] at hadd
            cases hmm2 : firstKindMismatch hs1.inTypes h.params 0 with
            | some trip =>
              obtain ⟨i, exp, got⟩ := trip
              rw [hmm2] at hadd
              simp at hadd
            | none =>
              rw [hmm2] at hadd
              simp at hadd
              subst hadd
              by_cases ht : t2 = t
              · subst ht
                rw [hlook] at hlook2
                obtain rfl : hs = hs1 := Option.some.inj hlook2
                refine ⟨Handlers.mk hs.inTypes (hs.funcs ++ [HandlerFunc.mk doOnce h.id]),
                  ?_, rfl⟩
                simp [lookupTopic_setTopic]
              · refine ⟨hs, ?_, rfl⟩
                simp [lookupTopic_setTopic, ht, hlook]
          · simp [hl] at hadd
      · simp [hk] at hadd
  · intro t2 args e2 fired hcall
    unfold callHandlers at hcall
    cases hlook2 : lookupTopic e.listeners t2 with
    | none =>
      rw [hlook2] at hcall
      simp at hcall
      obtain ⟨rfl, -⟩ := hcall
      exact ⟨hs, hlook, rfl⟩
    | some hs1 =>
      rw [hlook2] at hcall
      by_cases hl : args.length = hs1.inTypes.length
      · simp only [hl] at hcall
        cases hmm2 : firstKindMismatch hs1.inTypes (args.map (fun a => a.type)) 0 with
        | some trip =>
          obtain ⟨i, exp, got⟩ := trip
          rw [hmm2] at hcall
          simp at hcall
        | none =>
          rw [hmm2] at hcall
          simp [grabFuncs_eq] at hcall
          obtain ⟨rfl, -⟩ := hcall
          by_cases ht : t2 = t
          · subst ht
            rw [hlook] at hlook2
            obtain rfl : hs = hs1 := Option.some.inj hlook2
            refine ⟨Handlers.mk hs.inTypes (hs.funcs.filter (fun hf => !hf.once)), ?_, rfl⟩
            simp [lookupTopic_setTopic]
          · refine ⟨hs, ?_, rfl⟩
            simp [lookupTopic_setTopic, ht, hlook]
      · simp [hl] at hcall
  · intro doOnce h hfuncs hk hne
    unfold addHandler
    rw [hlook]
    simp [hk, hne]

/-- C7, concrete instance: after the valid dispatch on "ready" consumed
the once handler, the entry survives with its signature; and a topic
"solo" whose handler list is empty (all consumed) still rejects, against
its original signature `(int)`, a new zero-parameter handler. -/
theorem topic_entry_persistence_witness :
    (∃ hs2, lookupTopic
        (Emitter.mk [("ready", Handlers.mk [tString, tUint64]
          [HandlerFunc.mk false 1])]).listeners "ready" = some hs2 ∧
      hs2.inTypes = [tString, tUint64]) ∧
    addHandler (Emitter.mk [("solo", Handlers.mk [tInt] [])]) false "solo"
      (some (HandlerVal.mk 8 Kind.func [])) = .error (.arityMismatch "solo" 1 0) := by
  have hall := topic_entry_persistence readyEmitter "ready"
    (Handlers.mk [tString, tUint64] [HandlerFunc.mk false 1, HandlerFunc.mk true 2]) (by decide)
  have hall2 := topic_entry_persistence (Emitter.mk [("solo", Handlers.mk [tInt] [])]) "solo"
    (Handlers.mk [tInt] []) (by decide)
  constructor
  · exact hall.2.1 "ready" [aName, aVal] _ _ rfl
  · exact hall2.2.2 false (HandlerVal.mk 8 Kind.func []) rfl rfl (by decide)

/-- C8, counterexample: registering a nil handler does fail and leaves
the state unchanged, but with the runtime nil-`Type` dereference panic
(`reflect.TypeOf(nil)` is nil and `Kind()` on it panics), not with the
`InvalidHandlerKind` condition the claim names. -/
theorem nil_handler_not_invalid_kind_counterexample :
    On NewEmitter "ready" none = .error EmitterError.nilTypeDeref ∧
    isInvalidHandlerKindError (On NewEmitter "ready" none) = false :=
  ⟨rfl, rfl⟩

/-- C8, amended: a non-nil handler whose kind is not `Func` makes
registration (via `On` or `Once`) fail with the `InvalidHandlerKind`
panic, leaving the emitter unchanged; a nil handler also makes it fail
with the state unchanged, but via the nil-`Type` dereference panic
rather than the `InvalidHandlerKind` condition. -/
theorem invalid_handler_kind_amended (e : Emitter) (doOnce : Bool) (t : String)
    (h : HandlerVal) (hk : h.kind ≠ Kind.func) :
    addHandler e doOnce t (some h) = .error (.invalidHandlerKind h.kind) ∧
    regState e doOnce t (some h) = e ∧
    addHandler e doOnce t none = .error .nilTypeDeref ∧
    regState e doOnce t none = e := by
  have h1 : addHandler e doOnce t (some h) = .error (.invalidHandlerKind h.kind) := by
    unfold addHandler
    simp [hk]
  have h2 : addHandler e doOnce t none = .error .nilTypeDeref := rfl
  refine ⟨h1, ?_, h2, ?_⟩
  · unfold regState
    rw [h1]
  · unfold regState
    rw [h2]

/-- C8, concrete instance: handler 9 of kind `int` (not a callable) is
rejected with the `InvalidHandlerKind` panic and the emitter keeps its
state; a nil handler is rejected with the nil-`Type` dereference, state
also kept. -/
theorem invalid_handler_kind_amended_witness :
    addHandler readyEmitter false "ready" (some (HandlerVal.mk 9 Kind.int [])) =
      .error (.invalidHandlerKind Kind.int) ∧
    regState readyEmitter false "ready" (some (HandlerVal.mk 9 Kind.int [])) = readyEmitter ∧
    addHandler readyEmitter false "ready" none = .error .nilTypeDeref ∧
    regState readyEmitter false "ready" none = readyEmitter :=
  invalid_handler_kind_amended readyEmitter false "ready" (HandlerVal.mk 9 Kind.int [])
    (by decide)

/-- C10: a dispatch on a registered topic that fails argument validation
panics, and the state observable after the call is exactly the state
before it — the topic still maps to the same record, so no once-flagged
handler was collected or removed (`grabFuncs` runs only after all
validation has succeeded). -/
theorem failed_dispatch_preserves_handlers (e : Emitter) (t : String) (args : List GoValue)
    (hs : Handlers)
    (hlook : lookupTopic e.listeners t = some hs)
    (hfail : args.length ≠ hs.inTypes.length ∨
      (args.length = hs.inTypes.length ∧
        args.map (fun a => a.type.kind) ≠ hs.inTypes.map (fun p => p.kind))) :
    (∃ err, callHandlers e t args = .error err) ∧
    dispatchState e t args = e ∧
    lookupTopic (dispatchState e t args).listeners t = some hs := by
  have hcall : ∃ err, callHandlers e t args = .error err := by
    rcases hfail with hne | ⟨hlen, hmaps⟩
    · exact ⟨_, callHandlers_count_error e t args hs hlook hne⟩
    · cases heq : firstKindMismatch hs.inTypes (args.map (fun a => a.type)) 0 with
      | none =>
        have hmap2 := (firstKindMismatch_eq_none_iff hs.inTypes (args.map (fun a => a.type)) 0
          (by simp [hlen])).mp heq
        simp only [List.map_map] at hmap2
        exact absurd hmap2.symm (by simpa using hmaps)
      | some trip =>
        obtain ⟨i, exp, got⟩ := trip
        exact ⟨_, callHandlers_kind_error e t args hs i exp got hlook hlen heq⟩
  obtain ⟨err, herr⟩ := hcall
  have hstate : dispatchState e t args = e := by
    unfold dispatchState
    rw [herr]
  refine ⟨⟨err, herr⟩, hstate, ?_⟩
  rw [hstate]
  exact hlook

/-- C10, concrete instance: emitting `(uint64, uint64)` on "ready"
(signature `(string, uint64)`) fails validation, and afterwards the
topic still holds both handlers — including the once-flagged handler 2,
which was neither collected nor removed. -/
theorem failed_dispatch_preserves_handlers_witness :
    (∃ err, callHandlers readyEmitter "ready" [aVal, aVal] = .error err) ∧
    dispatchState readyEmitter "ready" [aVal, aVal] = readyEmitter ∧
    lookupTopic (dispatchState readyEmitter "ready" [aVal, aVal]).listeners "ready" =
      some (Handlers.mk [tString, tUint64] [HandlerFunc.mk false 1, HandlerFunc.mk true 2]) :=
  failed_dispatch_preserves_handlers readyEmitter "ready" [aVal, aVal]
    (Handlers.mk [tString, tUint64] [HandlerFunc.mk false 1, HandlerFunc.mk true 2])
    (by decide) (Or.inr ⟨by decide, by decide⟩)

end Events
